import Mathlib

set_option maxHeartbeats 1000000
set_option maxRecDepth 100000

/-!
Shallow embedding of the client core of `jupyterlab_doc_reader_extension`
(files `src/index.ts`, `src/widget.ts`, and the binary `DocModel`), together
with proofs settling the specification claims about it.

The TypeScript widget manipulates loosely typed JSON values arriving from the
transport boundary, DOM strings, and a small amount of per-widget DOM state.
The embedding models:
  * JSON/JavaScript values as the inductive `JVal` (with `jundef` for
    JavaScript `undefined`);
  * DOM strings as Lean `String`s;
  * the widget's mutable DOM/lifecycle state as the structure `WidgetState`,
    transformed by pure functions that mirror the source methods;
  * platform builtins (`atob`, `JSON.stringify`, `Uint8Array` coercion,
    `div.textContent`/`innerHTML` escaping) as executable Lean functions
    following their standard semantics.
-/

namespace DocReader

/-- JavaScript values as seen by the widget: the values produced by parsing a
JSON transport body plus `undefined` (absent property) and host objects with
string-valued fields (errors are represented by their observable fields). -/
inductive JVal where
  | jundef : JVal
  | jnull : JVal
  | jbool : Bool → JVal
  | jnum : Int → JVal
  | jstr : String → JVal
  | jobj : List (String × JVal) → JVal

/-- Field lookup in an object's binding list (first binding wins; the objects
exchanged by this program have unique keys). -/
def lookupField : List (String × JVal) → String → Option JVal
  | [], _ => none
  | (k, v) :: rest, key => if k = key then some v else lookupField rest key

/-- JavaScript property access `v?.key` / `v.key` on a non-null value: object
fields are looked up, any other value (including primitives) yields
`undefined`. -/
def getFieldD : JVal → String → JVal
  | JVal.jobj fs, key => (lookupField fs key).getD JVal.jundef
  | _, _ => JVal.jundef

/-- JavaScript truthiness: `undefined`, `null`, `false`, `0` and `""` are
falsy, everything else (including every object) is truthy. -/
def jsTruthy : JVal → Bool
  | JVal.jundef => false
  | JVal.jnull => false
  | JVal.jbool b => b
  | JVal.jnum n => n != 0
  | JVal.jstr s => s != ""
  | JVal.jobj _ => true

/-- JavaScript string conversion, as performed by template-literal
interpolation `${v}`. -/
def jsToString : JVal → String
  | JVal.jundef => "undefined"
  | JVal.jnull => "null"
  | JVal.jbool b => if b then "true" else "false"
  | JVal.jnum n => toString n
  | JVal.jstr s => s
  | JVal.jobj _ => "[object Object]"

/-- Minimal JSON string quoting used by `stringify` (escapes the quote and
backslash characters; the strings this program stringifies contain neither
control characters nor other escapes). -/
def jsonQuote (s : String) : String :=
  "\"" ++ String.join (s.toList.map fun c =>
    if c = '"' then "\\\"" else if c = '\\' then "\\\\" else String.singleton c) ++ "\""

mutual

/-- `JSON.stringify`, restricted to the value shapes of `JVal`.
(`JSON.stringify(undefined)` is JavaScript `undefined`; it is rendered here as
the string `"undefined"`, which is how it would subsequently display — no
value thrown by this program stringifies a bare `undefined`.) -/
def stringify : JVal → String
  | JVal.jundef => "undefined"
  | JVal.jnull => "null"
  | JVal.jbool b => if b then "true" else "false"
  | JVal.jnum n => toString n
  | JVal.jstr s => jsonQuote s
  | JVal.jobj fs => "\x7b" ++ stringifyFields fs ++ "\x7d"

/-- Comma-separated `"key":value` renderings of an object's fields. -/
def stringifyFields : List (String × JVal) → String
  | [] => ""
  | [(k, v)] => jsonQuote k ++ ":" ++ stringify v
  | (k, v) :: rest => jsonQuote k ++ ":" ++ stringify v ++ "," ++ stringifyFields rest

end

/-- `DocReaderWidget._escapeHtml` (src/widget.ts:254-258): the source assigns
the text to `div.textContent` and reads back `div.innerHTML`; the browser
serialization escapes exactly `&`, `<` and `>` in text nodes (quotes are left
alone, as the repository's own Jest test for `_escapeHtml` records). -/
def escapeHtml (text : String) : String :=
  String.join (text.toList.map fun c =>
    if c = '&' then "&amp;"
    else if c = '<' then "&lt;"
    else if c = '>' then "&gt;"
    else String.singleton c)

/-! ## Base64: the server-side encoder and the browser `atob` decoder -/

/-- The base64 alphabet, index `i` holding the character for sextet `i`. -/
def b64Alphabet : List Char :=
  "ABCDEFGHIJKLMNOPQRSTUVWXYZabcdefghijklmnopqrstuvwxyz0123456789+/".toList

/-- Character for a sextet value (`n < 64`). -/
def sextetToChar (n : Nat) : Char := b64Alphabet.getD n 'A'

/-- Helper for `sextetOf`: position of a character in a list, as an option. -/
def sextetOfAux : List Char → Nat → Char → Option Nat
  | [], _, _ => none
  | a :: rest, i, c => if a = c then some i else sextetOfAux rest (i + 1) c

/-- Sextet value of a base64 alphabet character (`none` for any character
outside the alphabet, including `=`). -/
def sextetOf (c : Char) : Option Nat := sextetOfAux b64Alphabet 0 c

/-- Modelled from the spec: the server-side `ResponseEncoder` (not under
`src/`) encodes the in-memory PDF bytes with standard padded base64 ("binary
PDF bytes are encoded into a transport-safe text representation (base64)",
spec section 4.4). Bytes are taken three at a time into four sextets, with
`=` padding for a 1- or 2-byte tail. -/
def b64Encode : List Nat → List Char
  | [] => []
  | [b0] => [sextetToChar (b0 / 4), sextetToChar (b0 % 4 * 16), '=', '=']
  | [b0, b1] => [sextetToChar (b0 / 4), sextetToChar (b0 % 4 * 16 + b1 / 16),
      sextetToChar (b1 % 16 * 4), '=']
  | b0 :: b1 :: b2 :: rest =>
      sextetToChar (b0 / 4) :: sextetToChar (b0 % 4 * 16 + b1 / 16) ::
      sextetToChar (b1 % 16 * 4 + b2 / 64) :: sextetToChar (b2 % 64) :: b64Encode rest

/-- The server-side encoding as a string (the `pdf_data` field of a success
response). -/
def btoaBytes (bytes : List Nat) : String := String.mk (b64Encode bytes)

/-- ASCII whitespace skipped by the forgiving-base64 decode used by `atob`. -/
def isB64Ws (c : Char) : Bool :=
  c == '\t' || c == '\n' || c == '\x0c' || c == '\r' || c == ' '

/-- Forgiving-base64 padding step: once whitespace is removed, if the length
is a multiple of four then up to two trailing `=` are dropped. -/
def stripPad (cs : List Char) : List Char :=
  match cs.reverse with
  | x :: y :: rest =>
      if x = '=' then
        if y = '=' then rest.reverse else (y :: rest).reverse
      else cs
  | _ => cs

/-- Forgiving-base64 main loop: four characters yield three bytes; a final
two- or three-character remainder yields one or two bytes (extra bits
discarded); a one-character remainder or any non-alphabet character is an
error. -/
def decodeQuantum : List Char → Option (List Nat)
  | [] => some []
  | [c0, c1] =>
      match sextetOf c0, sextetOf c1 with
      | some s0, some s1 => some [s0 * 4 + s1 / 16]
      | _, _ => none
  | [c0, c1, c2] =>
      match sextetOf c0, sextetOf c1, sextetOf c2 with
      | some s0, some s1, some s2 => some [s0 * 4 + s1 / 16, s1 % 16 * 16 + s2 / 4]
      | _, _, _ => none
  | c0 :: c1 :: c2 :: c3 :: rest =>
      match sextetOf c0, sextetOf c1, sextetOf c2, sextetOf c3, decodeQuantum rest with
      | some s0, some s1, some s2, some s3, some tail =>
          some ((s0 * 4 + s1 / 16) :: (s1 % 16 * 16 + s2 / 4) :: (s2 % 4 * 64 + s3) :: tail)
      | _, _, _, _, _ => none
  | _ => none

/-- The browser builtin `atob`, modelled by the forgiving-base64 algorithm it
is specified to use. The result is the list of byte values, i.e. the
character codes of the binary string `atob` returns (each `< 256`); `none`
models the `InvalidCharacterError` thrown on malformed input. -/
def atob (s : String) : Option (List Nat) :=
  let data := s.toList.filter fun c => !isB64Ws c
  let data := if data.length % 4 = 0 then stripPad data else data
  decodeQuantum data

/-! ## The widget (src/widget.ts) -/

/-- A browser `Blob`: its byte content and MIME type. -/
structure Blob where
  bytes : List Nat
  type : String
deriving DecidableEq

/-- `Blob.size` is the byte count. -/
def Blob.size (b : Blob) : Nat := b.bytes.length

/-- The `InvalidCharacterError` thrown by `atob` on malformed input,
represented by its observable `message` field. -/
def invalidCharacterError : JVal :=
  JVal.jobj [("message", JVal.jstr
    "Failed to execute atob on Window: The string to be decoded is not correctly encoded.")]

/-- The `SyntaxError` thrown by `JSON.parse` on malformed input. -/
def jsonParseError : JVal :=
  JVal.jobj [("message", JVal.jstr "Unexpected token in JSON")]

/-- The `TypeError` thrown by reading a property of `null`/`undefined`. -/
def typeErrorReading (prop : String) : JVal :=
  JVal.jobj [("message", JVal.jstr ("Cannot read properties of null (reading " ++ prop ++ ")"))]

/-- `DocReaderWidget._base64ToBlob` (src/widget.ts:150-160): `atob` produces
the binary string (represented by its character codes), `charCodeAt` reads
each code, and the `Uint8Array` constructor coerces each to a byte
(`% 256`; `atob` output codes are already below 256). The `Except` error is
the `InvalidCharacterError` that `atob` throws on malformed base64, which the
caller's `catch` receives. -/
def base64ToBlob (base64 : String) (contentType : String) : Except JVal Blob :=
  match atob base64 with
  | none => Except.error invalidCharacterError
  | some byteCharacters =>
      let byteNumbers := byteCharacters.map fun code => code % 256
      Except.ok { bytes := byteNumbers, type := contentType }

/-! ### The error panel (`_showError`)

The template literals of the source are reproduced with their interpolations
in exact positions; the insignificant indentation inside the literals is
condensed to single newlines. -/

/-- The `errorMessage` computed by `_showError` (src/widget.ts:172-185). The
initial `"Unknown error occurred"` is overwritten on every branch of the
source's `if`/`else` chain, so it never surfaces. -/
def errorMessageOf (error : JVal) : String :=
  if jsTruthy (getFieldD error "error") then jsToString (getFieldD error "error")
  else if jsTruthy (getFieldD error "message") then jsToString (getFieldD error "message")
  else
    match error with
    | JVal.jstr s => s
    | _ => stringify error

/-- The `errorType` computed by `_showError` (default `"Error"`). -/
def errorTypeOf (error : JVal) : String :=
  if jsTruthy (getFieldD error "error_type") then jsToString (getFieldD error "error_type")
  else "Error"

/-- The `traceback` computed by `_showError` (default `""`). -/
def tracebackOf (error : JVal) : String :=
  if jsTruthy (getFieldD error "traceback") then jsToString (getFieldD error "traceback")
  else ""

/-- The `debugInfo` block of `_showError` (src/widget.ts:195-203). Note the
source interpolates `error.file_path` and `error.full_path` directly, without
`_escapeHtml`. -/
def debugInfoOf (error : JVal) : String :=
  if jsTruthy (getFieldD error "file_path") || jsTruthy (getFieldD error "full_path") then
    "\n<div style=\"margin-top: 15px; padding: 10px; background: #f5f5f5; border-radius: 4px;\">\n<strong>Debug Information:</strong><br>\n"
    ++ (if jsTruthy (getFieldD error "file_path") then
          "<div style=\"margin: 5px 0;\"><strong>Requested path:</strong> <code>"
          ++ jsToString (getFieldD error "file_path") ++ "</code></div>"
        else "")
    ++ "\n"
    ++ (if jsTruthy (getFieldD error "full_path") then
          "<div style=\"margin: 5px 0;\"><strong>Full path:</strong> <code>"
          ++ jsToString (getFieldD error "full_path") ++ "</code></div>"
        else "")
    ++ "\n</div>\n"
  else ""

/-- The `tracebackSection` of `_showError` (src/widget.ts:205-216); the
traceback text passes through `_escapeHtml`. -/
def tracebackSectionOf (error : JVal) : String :=
  if tracebackOf error != "" then
    "\n<details style=\"margin-top: 15px;\">\n<summary style=\"cursor: pointer; font-weight: bold; padding: 10px; background: #f5f5f5; border-radius: 4px;\">\nView Full Traceback\n</summary>\n<pre style=\"margin: 10px 0; padding: 10px; background: #2d2d2d; color: #f8f8f8; border-radius: 4px; overflow-x: auto; font-size: 12px; line-height: 1.4;\">"
    ++ escapeHtml (tracebackOf error)
    ++ "</pre>\n</details>\n"
  else ""

/-- The full `innerHTML` assigned to the error panel by `_showError`
(src/widget.ts:218-248): escaped error type, escaped message, the raw-path
debug block, the escaped traceback section, and the static troubleshooting
text. -/
def errHtmlOf (error : JVal) : String :=
  "\n<div style=\"padding: 20px; font-family: sans-serif; overflow-y: auto; max-height: 100%;\">\n<h3 style=\"color: #d32f2f; margin: 0 0 15px 0;\">Failed to load document</h3>\n\n<div style=\"margin-bottom: 15px;\">\n<strong>Error Type:</strong> <code>"
  ++ escapeHtml (errorTypeOf error)
  ++ "</code>\n</div>\n\n<div style=\"margin-bottom: 15px; padding: 10px; background: #ffebee; border-left: 4px solid #d32f2f; border-radius: 4px;\">\n<strong>Error Message:</strong><br>\n<pre style=\"margin: 5px 0; white-space: pre-wrap; font-family: monospace;\">"
  ++ escapeHtml (errorMessageOf error)
  ++ "</pre>\n</div>\n\n"
  ++ debugInfoOf error
  ++ "\n"
  ++ tracebackSectionOf error
  ++ "\n\n<div style=\"margin-top: 20px; padding: 15px; background: #e3f2fd; border-radius: 4px;\">\n<strong>Troubleshooting:</strong>\n<ul style=\"margin: 10px 0; padding-left: 20px;\">\n<li>Check that mammoth and weasyprint are installed: <code>pip list | grep -E \"mammoth|weasyprint\"</code></li>\n<li>Verify the extension is properly installed: <code>jupyter server extension list</code></li>\n<li>Check the file is a valid DOCX, DOC, or RTF document</li>\n<li>Ensure the file is not corrupted or password-protected</li>\n<li>For legacy DOC files, consider converting to DOCX format</li>\n<li>Check JupyterLab logs for more details: <code>/var/log/jupyterlab.log</code></li>\n</ul>\n</div>\n</div>\n"

/-! ### Widget state and lifecycle -/

/-- Children of the widget's root node. -/
inductive NodeChild where
  | errorDivChild
  | iframeChild
  | embedChild (src : String)
deriving DecidableEq

/-- The `_ready` `PromiseDelegate` observable state. -/
inductive ReadyState where
  | pending
  | resolvedOk
  | rejectedWith (e : JVal)

/-- The spec's `ViewerState` (`Loading`, `Rendered`, `Failed`). -/
inductive Phase where
  | loading
  | rendered
  | failed
deriving DecidableEq

/-- The mutable state of one `DocReaderWidget` instance: the DOM fields the
source reads or writes, the object URLs created and revoked through the
`URL` API, the `_ready` delegate, and the Lumino `isDisposed` flag.
`loadInvocations` counts calls of `_loadDocument`. -/
structure WidgetState where
  titleLabel : String
  iframeSrc : String
  iframeSrcdoc : String
  iframeDisplay : String
  errorDivDisplay : String
  errorDivInnerHTML : String
  nodeChildren : List NodeChild
  objectUrls : List String
  revokedUrls : List String
  ready : ReadyState
  loadInvocations : Nat
  settled : Bool
  disposed : Bool

/-- The loading placeholder document assigned to `iframe.srcdoc` at the top
of `_loadDocument` (src/widget.ts:59-68). -/
def loadingHtml : String :=
  "\n<html>\n<body style=\"display: flex; justify-content: center; align-items: center; height: 100vh; margin: 0; font-family: sans-serif;\">\n<div style=\"text-align: center;\">\n<div style=\"font-size: 18px; margin-bottom: 10px;\">Converting document...</div>\n<div style=\"font-size: 14px; color: #666;\">Please wait while we process your file</div>\n</div>\n</body>\n</html>\n"

/-- The widget state right after the constructor (src/widget.ts:16-42) has
run: label set, error div hidden, both children attached, and — because
`void this._loadDocument()` executes synchronously up to its first `await` —
the loading placeholder already in `iframe.srcdoc`. `_loadDocument` has been
invoked exactly once; `iframe.src` is never assigned anywhere in the source,
so it stays `""`. -/
def constructState (path : String) : WidgetState where
  titleLabel := path
  iframeSrc := ""
  iframeSrcdoc := loadingHtml
  iframeDisplay := ""
  errorDivDisplay := "none"
  errorDivInnerHTML := ""
  nodeChildren := [NodeChild.errorDivChild, NodeChild.iframeChild]
  objectUrls := []
  revokedUrls := []
  ready := ReadyState.pending
  loadInvocations := 1
  settled := false
  disposed := false

/-- Modelled from the spec: the `requestAPI` transport helper (imported from
`./handler`, which is not under `src/`). Per spec section 4.5 and section 6,
the one conversion request either resolves with the parsed JSON response
body, or rejects with a transport error whose `message` carries the raw
response body text (case (a): a structured failure body arriving with a
non-2xx status; case (b): a non-JSON body or network failure). -/
inductive Outcome where
  | resolved (response : JVal)
  | rejected (apiError : JVal)

/-- The `catch (apiError)` handler inside `_loadDocument`
(src/widget.ts:84-97): the value it throws on to the outer `catch`.
The source is
`if (apiError?.message) { try { const errorData = JSON.parse(apiError.message);
throw errorData; } catch { throw apiError; } } throw apiError;` —
the `throw errorData` statement sits inside the `try` block, so the bare
`catch` intercepts it and throws the original `apiError`; the same happens
when `JSON.parse` itself throws. `parse` is the `JSON.parse` builtin
(`none` = parse exception). -/
def handleApiError (parse : String → Option JVal) (apiError : JVal) : JVal :=
  if jsTruthy (getFieldD apiError "message") then
    match parse (jsToString (getFieldD apiError "message")) with
    | some _errorData => apiError
    | none => apiError
  else apiError

/-- `_showError` (src/widget.ts:165-249): hide the iframe, show the error
div, and fill it with the structured panel. -/
def showErrorState (error : JVal) (s : WidgetState) : WidgetState :=
  { s with iframeDisplay := "none", errorDivDisplay := "block",
           errorDivInnerHTML := errHtmlOf error }

/-- `URL.createObjectURL`: a fresh `blob:` URL for this widget. -/
def freshBlobUrl (s : WidgetState) : String :=
  "blob:doc-" ++ toString s.objectUrls.length

/-- The body of `_loadDocument` from the point where the awaited `requestAPI`
call settles (src/widget.ts:72-139), up to but excluding the outer `catch`:
an `Except.error` is a value thrown to that `catch`. On a resolved `null`
response, reading `response.success` throws a `TypeError`. On
`response.success && response.pdf_data` both truthy, the base64 payload is
decoded to a blob, an object URL is created, the loading placeholder is
cleared, the iframe hidden, all children replaced by an `embed` bound to the
URL, and `_ready` resolves; otherwise the response itself is thrown. -/
def loadBody (parse : String → Option JVal) (o : Outcome) (s : WidgetState) :
    Except JVal WidgetState :=
  match o with
  | Outcome.rejected apiError => Except.error (handleApiError parse apiError)
  | Outcome.resolved response =>
      match response with
      | JVal.jnull => Except.error (typeErrorReading "success")
      | JVal.jundef => Except.error (typeErrorReading "success")
      | _ =>
        if jsTruthy (getFieldD response "success") &&
           jsTruthy (getFieldD response "pdf_data") then
          match base64ToBlob (jsToString (getFieldD response "pdf_data")) "application/pdf" with
          | Except.error e => Except.error e
          | Except.ok _pdfBlob =>
              let pdfUrl := freshBlobUrl s
              Except.ok { s with
                objectUrls := s.objectUrls ++ [pdfUrl],
                iframeSrcdoc := "",
                iframeDisplay := "none",
                nodeChildren := [NodeChild.embedChild pdfUrl],
                ready := ReadyState.resolvedOk }
        else Except.error response

/-- `_loadDocument` from the settlement of the transport request onwards,
with its outer `try`/`catch` (src/widget.ts:140-144): every thrown value is
caught, `_showError` renders it, and `_ready` rejects. The function is total:
no exception escapes `_loadDocument`. -/
def settleResult (parse : String → Option JVal) (o : Outcome) (s : WidgetState) :
    WidgetState :=
  match loadBody parse o s with
  | Except.ok s' => s'
  | Except.error e => { showErrorState e s with ready := ReadyState.rejectedWith e }

/-- `DocReaderWidget.dispose` (src/widget.ts:263-274): return immediately when
already disposed; revoke `this._iframe.src` when it starts with `blob:`; then
`super.dispose()` marks the widget disposed. -/
def dispose (s : WidgetState) : WidgetState :=
  if s.disposed then s
  else
    let s' :=
      if s.iframeSrc.startsWith "blob:" then
        { s with revokedUrls := s.revokedUrls ++ [s.iframeSrc] }
      else s
    { s' with disposed := true }

/-- Whether a node child is the PDF `embed` element. -/
def isEmbedChild : NodeChild → Bool
  | NodeChild.embedChild _ => true
  | _ => false

/-- The spec's `ViewerState`, read off the displayed content: `Failed` when
the error div is shown, `Rendered` when the PDF `embed` is attached,
`Loading` otherwise. -/
def WidgetState.phase (s : WidgetState) : Phase :=
  if s.errorDivDisplay = "block" then Phase.failed
  else if s.nodeChildren.any isEmbedChild then Phase.rendered
  else Phase.loading

/-- The external stimuli a constructed widget can receive: the settlement of
its single transport request (the source exposes no refresh or retry entry
point), and calls of `dispose` by the host. -/
inductive WEvent where
  | settle (o : Outcome)
  | disposeCall

/-- One stimulus applied to the widget state. The transport promise settles
at most once, so a second `settle` is a dead stimulus. -/
def widgetStep (parse : String → Option JVal) (s : WidgetState) (e : WEvent) : WidgetState :=
  match e with
  | WEvent.settle o => if s.settled then s else { settleResult parse o s with settled := true }
  | WEvent.disposeCall => dispose s

/-- A widget run: construction followed by any sequence of stimuli. -/
def runWidget (parse : String → Option JVal) (path : String) (evs : List WEvent) :
    WidgetState :=
  evs.foldl (widgetStep parse) (constructState path)

/-! ## The binary document model (`DocModel`)

The minimal `DocumentRegistry.IModel` for binary documents: it never loads
content, its signals are never emitted, and all mutating entry points are
no-ops. The observable state is modelled by emission counters for the two
signals (a `Signal` object is created but `emit` is never called anywhere in
the class). -/

/-- Observable state of one `DocModel` instance. -/
structure DocModelState where
  contentChangedEmits : Nat
  stateChangedEmits : Nat
deriving DecidableEq

/-- A freshly constructed `DocModel`: no signal has fired. -/
def docModelInit : DocModelState where
  contentChangedEmits := 0
  stateChangedEmits := 0

/-- `DocModel.readOnly` getter: always `true`. -/
def DocModelState.readOnly (_ : DocModelState) : Bool := true

/-- `DocModel.dirty` getter: always `false`. -/
def DocModelState.dirty (_ : DocModelState) : Bool := false

/-- `DocModel.toString`: always the empty string. -/
def DocModelState.modelToString (_ : DocModelState) : String := ""

/-- `DocModel.isDisposed` getter: always `false`. -/
def DocModelState.modelIsDisposed (_ : DocModelState) : Bool := false

/-- The operations callable on a `DocModel` that could conceivably mutate it:
`fromString`, `fromJSON`, `initialize` and `dispose`. -/
inductive DocModelOp where
  | fromStringOp (value : String)
  | fromJSONOp (value : JVal)
  | initOp
  | disposeOp

/-- Applying one operation: every body in the source is
`// Do nothing`, so the state is returned unchanged and no signal fires. -/
def docModelApply (m : DocModelState) : DocModelOp → DocModelState
  | DocModelOp.fromStringOp _ => m
  | DocModelOp.fromJSONOp _ => m
  | DocModelOp.initOp => m
  | DocModelOp.disposeOp => m

/-- A sequence of operations on a `DocModel`. -/
def docModelRun (m : DocModelState) (ops : List DocModelOp) : DocModelState :=
  ops.foldl docModelApply m

/-! ## Plugin activation (src/index.ts) -/

/-- One entry of the `FILE_TYPES` constant (src/index.ts:11-38). -/
structure FileType where
  name : String
  displayName : String
  extensions : List String
  mimeTypes : List String
  contentType : String
  fileFormat : String
deriving DecidableEq

/-- The `FILE_TYPES` constant. -/
def FILE_TYPES : List FileType :=
  [ { name := "docx"
    , displayName := "Word Document (DOCX)"
    , extensions := [".docx"]
    , mimeTypes := ["application/vnd.openxmlformats-officedocument.wordprocessingml.document"]
    , contentType := "file"
    , fileFormat := "base64" }
  , { name := "doc"
    , displayName := "Word Document (DOC)"
    , extensions := [".doc"]
    , mimeTypes := ["application/msword"]
    , contentType := "file"
    , fileFormat := "base64" }
  , { name := "rtf"
    , displayName := "Rich Text Format"
    , extensions := [".rtf"]
    , mimeTypes := ["application/rtf", "text/rtf"]
    , contentType := "file"
    , fileFormat := "base64" } ]

/-- A file type as passed to `docRegistry.addFileType` (only `name`,
`displayName`, `extensions` and `mimeTypes` are forwarded). -/
structure RegisteredFileType where
  name : String
  displayName : String
  extensions : List String
  mimeTypes : List String
deriving DecidableEq

/-- The options object passed to the `DocReaderFactory` constructor
(src/index.ts:71-77). -/
structure FactoryOptions where
  name : String
  modelName : String
  fileTypes : List String
  defaultFor : List String
  readOnly : Bool
deriving DecidableEq

/-- The document registry surface touched by `activate`. -/
structure RegistryState where
  fileTypes : List RegisteredFileType
  factories : List FactoryOptions
deriving DecidableEq

/-- A registry before this plugin activates (no conflicting registrations;
the source's `try`/`catch` around `addFileType` only downgrades an
already-registered duplicate to a warning). -/
def emptyRegistry : RegistryState where
  fileTypes := []
  factories := []

/-- `docRegistry.addFileType` on a fresh registry: append the registration. -/
def addFileType (reg : RegistryState) (ft : FileType) : RegistryState :=
  { reg with fileTypes := reg.fileTypes ++
      [{ name := ft.name, displayName := ft.displayName,
         extensions := ft.extensions, mimeTypes := ft.mimeTypes }] }

/-- Whether `pat` is a prefix of the character list (executable helper for
substring tests over the rendered HTML). -/
def startsWithList : List Char → List Char → Bool
  | _, [] => true
  | [], _ :: _ => false
  | a :: as, b :: bs => a == b && startsWithList as bs

/-- Whether `pat` occurs contiguously inside the character list. -/
def occursIn (pat : List Char) : List Char → Bool
  | [] => startsWithList [] pat
  | c :: rest => startsWithList (c :: rest) pat || occursIn pat rest

/-- Whether `pat` occurs as a substring of `s`. -/
def strOccurs (s pat : String) : Bool := occursIn pat.toList s.toList

/-- The plugin `activate` function (src/index.ts:48-86): register every
`FILE_TYPES` entry, then register the `Document Reader` widget factory with
the `base64` model, covering and defaulting for all three type names,
read-only. -/
def activate (reg : RegistryState) : RegistryState :=
  let reg := FILE_TYPES.foldl addFileType reg
  { reg with factories := reg.factories ++
      [{ name := "Document Reader"
       , modelName := "base64"
       , fileTypes := FILE_TYPES.map (fun ft => ft.name)
       , defaultFor := FILE_TYPES.map (fun ft => ft.name)
       , readOnly := true }] }

/-! ## Base64 round-trip lemmas -/

/-- Decoding a sextet character recovers the sextet. -/
theorem sextetOf_sextetToChar : ∀ n, n < 64 → sextetOf (sextetToChar n) = some n := by decide

/-- No sextet character is the padding character. -/
theorem sextetToChar_ne_pad : ∀ n, n < 64 → sextetToChar n ≠ '=' := by decide

/-- No sextet character is base64 whitespace. -/
theorem sextetToChar_not_ws : ∀ n, n < 64 → isB64Ws (sextetToChar n) = false := by decide

/-- Encoded output length is always a multiple of four. -/
theorem b64Encode_length_mod : ∀ bs : List Nat, (b64Encode bs).length % 4 = 0
  | [] => by simp [b64Encode]
  | [_] => by simp [b64Encode]
  | [_, _] => by simp [b64Encode]
  | _ :: _ :: _ :: rest => by
      have ih := b64Encode_length_mod rest
      simp [b64Encode]
      omega

/-- Encoded output of a nonempty byte list has at least four characters. -/
theorem b64Encode_length_ge : ∀ bs : List Nat, bs ≠ [] → 4 ≤ (b64Encode bs).length
  | [], h => absurd rfl h
  | [_], _ => by simp [b64Encode]
  | [_, _], _ => by simp [b64Encode]
  | _ :: _ :: _ :: rest, _ => by simp [b64Encode]

/-- No character of the encoded output is base64 whitespace. -/
theorem b64Encode_not_ws : ∀ bs : List Nat, (∀ b ∈ bs, b < 256) →
    ∀ c ∈ b64Encode bs, isB64Ws c = false
  | [], _, c, hc => by simp [b64Encode] at hc
  | [b0], h, c, hc => by
      have hb0 : b0 < 256 := h b0 (by simp)
      simp [b64Encode] at hc
      rcases hc with rfl | rfl | rfl
      · exact sextetToChar_not_ws _ (by omega)
      · exact sextetToChar_not_ws _ (by omega)
      · decide
  | [b0, b1], h, c, hc => by
      have hb0 : b0 < 256 := h b0 (by simp)
      have hb1 : b1 < 256 := h b1 (by simp)
      simp [b64Encode] at hc
      rcases hc with rfl | rfl | rfl | rfl
      · exact sextetToChar_not_ws _ (by omega)
      · exact sextetToChar_not_ws _ (by omega)
      · exact sextetToChar_not_ws _ (by omega)
      · decide
  | b0 :: b1 :: b2 :: rest, h, c, hc => by
      have hb0 : b0 < 256 := h b0 (by simp)
      have hb1 : b1 < 256 := h b1 (by simp)
      have hb2 : b2 < 256 := h b2 (by simp)
      have hrest : ∀ b ∈ rest, b < 256 := fun b hb => h b (by simp [hb])
      simp [b64Encode] at hc
      rcases hc with rfl | rfl | rfl | rfl | hmem
      · exact sextetToChar_not_ws _ (by omega)
      · exact sextetToChar_not_ws _ (by omega)
      · exact sextetToChar_not_ws _ (by omega)
      · exact sextetToChar_not_ws _ (by omega)
      · exact b64Encode_not_ws rest hrest c hmem

/-- Whitespace filtering leaves the encoded output unchanged. -/
theorem b64Encode_filter_ws (bs : List Nat) (h : ∀ b ∈ bs, b < 256) :
    (b64Encode bs).filter (fun c => !isB64Ws c) = b64Encode bs := by
  refine List.filter_eq_self.mpr fun c hc => ?_
  rw [b64Encode_not_ws bs h c hc]
  rfl

/-- Padding removal commutes with a prefix once the suffix keeps at least two
characters. -/
theorem stripPad_append (A B : List Char) (h : 2 ≤ B.length) :
    stripPad (A ++ B) = A ++ stripPad B := by
  rcases hB : B.reverse with _ | ⟨x, t⟩
  · have : B = [] := by simpa using congrArg List.reverse hB
    subst this; simp at h
  rcases ht : t with _ | ⟨y, r⟩
  · have : B.length = 1 := by
      have := congrArg List.length hB
      simp [ht] at this
      simpa using this
    omega
  subst ht
  have hrev : (A ++ B).reverse = x :: y :: (r ++ A.reverse) := by
    simp [List.reverse_append, hB]
  by_cases hx : x = '='
  · by_cases hy : y = '='
    · subst hx; subst hy
      rw [stripPad, hrev]
      simp only [if_pos rfl]
      rw [stripPad, hB]
      simp only [if_pos rfl]
      simp [List.reverse_append]
    · subst hx
      rw [stripPad, hrev]
      simp only [if_pos rfl, if_neg hy]
      rw [stripPad, hB]
      simp only [if_pos rfl, if_neg hy]
      simp [List.reverse_append]
  · rw [stripPad, hrev]
    simp only [if_neg hx]
    rw [stripPad, hB]
    simp only [if_neg hx]

/-- Core round trip: decoding the padded-then-stripped encoding recovers the
bytes. -/
theorem decodeQuantum_stripPad_encode : ∀ bs : List Nat, (∀ b ∈ bs, b < 256) →
    decodeQuantum (stripPad (b64Encode bs)) = some bs
  | [], _ => by decide
  | [b0], h => by
      have hb0 : b0 < 256 := h b0 (by simp)
      have hstrip : stripPad (b64Encode [b0]) =
          [sextetToChar (b0 / 4), sextetToChar (b0 % 4 * 16)] := by
        simp [b64Encode, stripPad]
      rw [hstrip, decodeQuantum,
          sextetOf_sextetToChar (b0 / 4) (by omega),
          sextetOf_sextetToChar (b0 % 4 * 16) (by omega)]
      simp only [Option.some.injEq, List.cons.injEq, and_true]
      omega
  | [b0, b1], h => by
      have hb0 : b0 < 256 := h b0 (by simp)
      have hb1 : b1 < 256 := h b1 (by simp)
      have hstrip : stripPad (b64Encode [b0, b1]) =
          [sextetToChar (b0 / 4), sextetToChar (b0 % 4 * 16 + b1 / 16),
           sextetToChar (b1 % 16 * 4)] := by
        have hpad : sextetToChar (b1 % 16 * 4) ≠ '=' := sextetToChar_ne_pad _ (by omega)
        simp [b64Encode, stripPad, hpad]
      rw [hstrip, decodeQuantum,
          sextetOf_sextetToChar (b0 / 4) (by omega),
          sextetOf_sextetToChar (b0 % 4 * 16 + b1 / 16) (by omega),
          sextetOf_sextetToChar (b1 % 16 * 4) (by omega)]
      simp only [Option.some.injEq, List.cons.injEq, and_true]
      constructor <;> omega
  | b0 :: b1 :: b2 :: rest, h => by
      have hb0 : b0 < 256 := h b0 (by simp)
      have hb1 : b1 < 256 := h b1 (by simp)
      have hb2 : b2 < 256 := h b2 (by simp)
      have hrest : ∀ b ∈ rest, b < 256 := fun b hb => h b (by simp [hb])
      have ih := decodeQuantum_stripPad_encode rest hrest
      rcases Decidable.em (rest = []) with hr | hr
      · subst hr
        have hpad : sextetToChar (b2 % 64) ≠ '=' := sextetToChar_ne_pad _ (by omega)
        have hstrip : stripPad (b64Encode [b0, b1, b2]) = b64Encode [b0, b1, b2] := by
          simp [b64Encode, stripPad, hpad]
        rw [hstrip]
        show decodeQuantum
          [sextetToChar (b0 / 4), sextetToChar (b0 % 4 * 16 + b1 / 16),
           sextetToChar (b1 % 16 * 4 + b2 / 64), sextetToChar (b2 % 64)] = _
        rw [decodeQuantum,
            sextetOf_sextetToChar (b0 / 4) (by omega),
            sextetOf_sextetToChar (b0 % 4 * 16 + b1 / 16) (by omega),
            sextetOf_sextetToChar (b1 % 16 * 4 + b2 / 64) (by omega),
            sextetOf_sextetToChar (b2 % 64) (by omega)]
        simp only [decodeQuantum, Option.some.injEq, List.cons.injEq, and_true]
        refine ⟨by omega, by omega, by omega⟩
      · have hsplit : b64Encode (b0 :: b1 :: b2 :: rest) =
            [sextetToChar (b0 / 4), sextetToChar (b0 % 4 * 16 + b1 / 16),
             sextetToChar (b1 % 16 * 4 + b2 / 64), sextetToChar (b2 % 64)] ++
            b64Encode rest := by
          simp [b64Encode]
        have hlen : 2 ≤ (b64Encode rest).length := by
          have := b64Encode_length_ge rest hr
          omega
        rw [hsplit, stripPad_append _ _ hlen]
        have h0 := sextetOf_sextetToChar (b0 / 4) (by omega : b0 / 4 < 64)
        have h1 := sextetOf_sextetToChar (b0 % 4 * 16 + b1 / 16)
          (by omega : b0 % 4 * 16 + b1 / 16 < 64)
        have h2 := sextetOf_sextetToChar (b1 % 16 * 4 + b2 / 64)
          (by omega : b1 % 16 * 4 + b2 / 64 < 64)
        have h3 := sextetOf_sextetToChar (b2 % 64) (by omega : b2 % 64 < 64)
        show decodeQuantum (sextetToChar (b0 / 4) :: sextetToChar (b0 % 4 * 16 + b1 / 16) ::
          sextetToChar (b1 % 16 * 4 + b2 / 64) :: sextetToChar (b2 % 64) ::
          stripPad (b64Encode rest)) = _
        simp only [decodeQuantum, h0, h1, h2, h3, ih, Option.some.injEq, List.cons.injEq]
        exact ⟨by omega, by omega, by omega, trivial⟩

/-- `atob` inverts the server-side encoder on every byte list. -/
theorem atob_btoaBytes (bs : List Nat) (h : ∀ b ∈ bs, b < 256) :
    atob (btoaBytes bs) = some bs := by
  have htl : (btoaBytes bs).toList = b64Encode bs := rfl
  rw [atob, htl]
  simp only [b64Encode_filter_ws bs h, b64Encode_length_mod bs, if_pos]
  exact decodeQuantum_stripPad_encode bs h

/-- `Uint8Array` coercion is the identity on byte values. -/
theorem map_mod256 : ∀ l : List Nat, (∀ b ∈ l, b < 256) →
    l.map (fun b => b % 256) = l
  | [], _ => rfl
  | a :: t, h => by
      have ha : a < 256 := h a (by simp)
      have ht : ∀ b ∈ t, b < 256 := fun b hb => h b (by simp [hb])
      simp [Nat.mod_eq_of_lt ha, map_mod256 t ht]

/-! ## Shared concrete values used by the claim theorems -/

/-- A `JSON.parse` that fails on every input (stands for the builtin in runs
whose error bodies are not valid JSON; the widget functions are parametric in
the parser). -/
def pnone : String → Option JVal := fun _ => none

/-- A successful conversion response (`pdf_data` decodes to the bytes
`[1, 2, 3]`). -/
def goodResp : JVal :=
  JVal.jobj [("success", JVal.jbool true), ("pdf_data", JVal.jstr "AQID"),
             ("filename", JVal.jstr "notes.pdf")]

/-! ## Claims -/

/-- C4: Round-trip — for every byte sequence, encoding it to a base64 string
(server-side `ResponseEncoder`, modelled from the spec) and decoding it
client-side via `_base64ToBlob` yields a blob whose content is byte-identical
to the original sequence and whose size equals the original byte count. -/
theorem C4_base64_roundtrip (bytes : List Nat) (contentType : String)
    (h : ∀ b ∈ bytes, b < 256) :
    ∃ blob, base64ToBlob (btoaBytes bytes) contentType = Except.ok blob ∧
      blob.bytes = bytes ∧ blob.size = bytes.length ∧ blob.type = contentType := by
  refine ⟨{ bytes := bytes, type := contentType }, ?_, rfl, rfl, rfl⟩
  unfold base64ToBlob
  rw [atob_btoaBytes bytes h]
  simp [map_mod256 bytes h]

/-- Witness for C4 at a concrete byte sequence (the PDF signature bytes
followed by `255`, `0`, `10`). -/
theorem C4_base64_roundtrip_witness :
    (∀ b ∈ [37, 80, 68, 70, 255, 0, 10], b < 256) ∧
    ∃ blob, base64ToBlob (btoaBytes [37, 80, 68, 70, 255, 0, 10]) "application/pdf" =
        Except.ok blob ∧ blob.bytes = [37, 80, 68, 70, 255, 0, 10] ∧
        blob.size = [37, 80, 68, 70, 255, 0, 10].length ∧ blob.type = "application/pdf" :=
  ⟨by decide, C4_base64_roundtrip [37, 80, 68, 70, 255, 0, 10] "application/pdf" (by decide)⟩

/-- Running any operation sequence on a fresh `DocModel` leaves it at the
initial state. -/
theorem docModelRun_id : ∀ (ops : List DocModelOp) (m : DocModelState),
    docModelRun m ops = m
  | [], _ => rfl
  | op :: rest, m => by
      rw [docModelRun, List.foldl_cons]
      cases op <;> exact docModelRun_id rest m

/-- C8: The document model offers no write-back — for every sequence of
operations on a `DocModel` instance, `readOnly` stays `true`, `dirty` stays
`false`, `fromString`, `fromJSON` and `initialize` leave the model unchanged,
and the `contentChanged` and `stateChanged` signals are never emitted. -/
theorem C8_doc_model_no_writeback (ops : List DocModelOp) :
    docModelRun docModelInit ops = docModelInit ∧
    (docModelRun docModelInit ops).readOnly = true ∧
    (docModelRun docModelInit ops).dirty = false ∧
    (docModelRun docModelInit ops).contentChangedEmits = 0 ∧
    (docModelRun docModelInit ops).stateChangedEmits = 0 ∧
    (∀ m v, docModelApply m (DocModelOp.fromStringOp v) = m) ∧
    (∀ m v, docModelApply m (DocModelOp.fromJSONOp v) = m) ∧
    (∀ m, docModelApply m DocModelOp.initOp = m) := by
  refine ⟨docModelRun_id ops docModelInit, ?_, ?_, ?_, ?_,
    fun m v => rfl, fun m v => rfl, fun m => rfl⟩ <;>
    rw [docModelRun_id ops docModelInit] <;> rfl

/-- C9: At plugin activation, exactly the file types `docx`, `doc` and `rtf`
are registered, with their extensions and media types, and the
`Document Reader` widget factory is registered as the default, read-only
viewer (on the `base64` model) for all three. -/
theorem C9_activation_registrations :
    (activate emptyRegistry).fileTypes =
      [ { name := "docx"
        , displayName := "Word Document (DOCX)"
        , extensions := [".docx"]
        , mimeTypes :=
            ["application/vnd.openxmlformats-officedocument.wordprocessingml.document"] }
      , { name := "doc"
        , displayName := "Word Document (DOC)"
        , extensions := [".doc"]
        , mimeTypes := ["application/msword"] }
      , { name := "rtf"
        , displayName := "Rich Text Format"
        , extensions := [".rtf"]
        , mimeTypes := ["application/rtf", "text/rtf"] } ] ∧
    (activate emptyRegistry).factories =
      [ { name := "Document Reader"
        , modelName := "base64"
        , fileTypes := ["docx", "doc", "rtf"]
        , defaultFor := ["docx", "doc", "rtf"]
        , readOnly := true } ] := by
  constructor <;> rfl

/-! ## Widget lifecycle lemmas -/

/-- Fields of the state produced by the success branch of `_loadDocument`. -/
theorem loadBody_ok_fields (parse : String → Option JVal) (o : Outcome)
    (s s' : WidgetState) (h : loadBody parse o s = Except.ok s') :
    s'.loadInvocations = s.loadInvocations ∧ s'.iframeSrc = s.iframeSrc ∧
    s'.revokedUrls = s.revokedUrls ∧ s'.errorDivDisplay = s.errorDivDisplay ∧
    s'.nodeChildren = [NodeChild.embedChild (freshBlobUrl s)] ∧
    s'.disposed = s.disposed := by
  cases o with
  | rejected apiError => simp [loadBody] at h
  | resolved response =>
      cases response with
      | jnull => simp [loadBody] at h
      | jundef => simp [loadBody] at h
      | jbool b =>
          simp only [loadBody] at h
          split at h
          · split at h
            · exact absurd h (by simp)
            · simp only [Except.ok.injEq] at h
              subst h
              exact ⟨rfl, rfl, rfl, rfl, rfl, rfl⟩
          · exact absurd h (by simp)
      | jnum n =>
          simp only [loadBody] at h
          split at h
          · split at h
            · exact absurd h (by simp)
            · simp only [Except.ok.injEq] at h
              subst h
              exact ⟨rfl, rfl, rfl, rfl, rfl, rfl⟩
          · exact absurd h (by simp)
      | jstr t =>
          simp only [loadBody] at h
          split at h
          · split at h
            · exact absurd h (by simp)
            · simp only [Except.ok.injEq] at h
              subst h
              exact ⟨rfl, rfl, rfl, rfl, rfl, rfl⟩
          · exact absurd h (by simp)
      | jobj fs =>
          simp only [loadBody] at h
          split at h
          · split at h
            · exact absurd h (by simp)
            · simp only [Except.ok.injEq] at h
              subst h
              exact ⟨rfl, rfl, rfl, rfl, rfl, rfl⟩
          · exact absurd h (by simp)

/-- The success branch only runs when both `response.success` and
`response.pdf_data` are truthy, on a resolved response. -/
theorem loadBody_ok_conditions (parse : String → Option JVal) (o : Outcome)
    (s s' : WidgetState) (h : loadBody parse o s = Except.ok s') :
    ∃ r, o = Outcome.resolved r ∧ jsTruthy (getFieldD r "success") = true ∧
      jsTruthy (getFieldD r "pdf_data") = true := by
  cases o with
  | rejected apiError => simp [loadBody] at h
  | resolved response =>
      refine ⟨response, rfl, ?_⟩
      cases response with
      | jnull => simp [loadBody] at h
      | jundef => simp [loadBody] at h
      | jbool b =>
          simp only [loadBody] at h
          split at h
          · next hcond =>
              rw [Bool.and_eq_true] at hcond
              exact hcond
          · exact absurd h (by simp)
      | jnum n =>
          simp only [loadBody] at h
          split at h
          · next hcond =>
              rw [Bool.and_eq_true] at hcond
              exact hcond
          · exact absurd h (by simp)
      | jstr t =>
          simp only [loadBody] at h
          split at h
          · next hcond =>
              rw [Bool.and_eq_true] at hcond
              exact hcond
          · exact absurd h (by simp)
      | jobj fs =>
          simp only [loadBody] at h
          split at h
          · next hcond =>
              rw [Bool.and_eq_true] at hcond
              exact hcond
          · exact absurd h (by simp)

/-- `settleResult` when the body throws: the error panel state. -/
theorem settleResult_of_error (parse : String → Option JVal) (o : Outcome)
    (s : WidgetState) (e : JVal) (h : loadBody parse o s = Except.error e) :
    settleResult parse o s =
      { showErrorState e s with ready := ReadyState.rejectedWith e } := by
  rw [settleResult, h]

/-- `settleResult` when the body succeeds. -/
theorem settleResult_of_ok (parse : String → Option JVal) (o : Outcome)
    (s s' : WidgetState) (h : loadBody parse o s = Except.ok s') :
    settleResult parse o s = s' := by
  rw [settleResult, h]

/-- A state showing the error div is in the `Failed` phase. -/
theorem phase_of_block (s : WidgetState) (h : s.errorDivDisplay = "block") :
    s.phase = Phase.failed := by
  rw [WidgetState.phase, if_pos h]

/-- `dispose` only touches `revokedUrls` and the `disposed` flag. -/
theorem dispose_fields (s : WidgetState) :
    (dispose s).loadInvocations = s.loadInvocations ∧
    (dispose s).errorDivDisplay = s.errorDivDisplay ∧
    (dispose s).nodeChildren = s.nodeChildren ∧
    (dispose s).iframeSrc = s.iframeSrc ∧
    (dispose s).settled = s.settled ∧
    (dispose s).objectUrls = s.objectUrls := by
  rw [dispose]
  by_cases hd : s.disposed
  · simp [hd]
  · by_cases hb : s.iframeSrc.startsWith "blob:" <;> simp [hd, hb]

/-- `dispose` does not change the displayed phase. -/
theorem dispose_phase (s : WidgetState) : (dispose s).phase = s.phase := by
  have h := dispose_fields s
  rw [WidgetState.phase, WidgetState.phase, h.2.1, h.2.2.1]

/-- No stimulus changes `loadInvocations`: `_loadDocument` has no caller
besides the constructor. -/
theorem widgetStep_loadInvocations (parse : String → Option JVal) (s : WidgetState)
    (e : WEvent) : (widgetStep parse s e).loadInvocations = s.loadInvocations := by
  cases e with
  | disposeCall => exact (dispose_fields s).1
  | settle o =>
      rw [widgetStep]
      by_cases hs : s.settled
      · rw [if_pos hs]
      · rw [if_neg hs]
        show (settleResult parse o s).loadInvocations = s.loadInvocations
        cases hb : loadBody parse o s with
        | ok s' => rw [settleResult_of_ok parse o s s' hb]
                   exact (loadBody_ok_fields parse o s s' hb).1
        | error e' => rw [settleResult_of_error parse o s e' hb]
                      rfl

/-- No stimulus moves a widget back into the `Loading` phase. -/
theorem widgetStep_no_reload (parse : String → Option JVal) (s : WidgetState)
    (e : WEvent) (h : (widgetStep parse s e).phase = Phase.loading) :
    s.phase = Phase.loading := by
  cases e with
  | disposeCall => rw [show widgetStep parse s WEvent.disposeCall = dispose s from rfl,
      dispose_phase] at h; exact h
  | settle o =>
      rw [widgetStep] at h
      by_cases hs : s.settled
      · rw [if_pos hs] at h; exact h
      · rw [if_neg hs] at h
        exfalso
        have hph : ({ settleResult parse o s with settled := true } : WidgetState).phase =
            (settleResult parse o s).phase := by
          rw [WidgetState.phase, WidgetState.phase]
        rw [hph] at h
        cases hb : loadBody parse o s with
        | error e' =>
            rw [settleResult_of_error parse o s e' hb] at h
            have : (({ showErrorState e' s with
                ready := ReadyState.rejectedWith e' } : WidgetState)).phase = Phase.failed :=
              phase_of_block _ rfl
            rw [this] at h
            exact Phase.noConfusion h
        | ok s' =>
            rw [settleResult_of_ok parse o s s' hb] at h
            have hf := loadBody_ok_fields parse o s s' hb
            rw [WidgetState.phase] at h
            by_cases hblock : s'.errorDivDisplay = "block"
            · rw [if_pos hblock] at h; exact Phase.noConfusion h
            · rw [if_neg hblock] at h
              rw [hf.2.2.2.2.1] at h
              simp [isEmbedChild] at h

/-- C6: Each widget instance performs exactly one conversion attempt —
`_loadDocument` is invoked exactly once, from the constructor, in every
reachable run, and no stimulus produces a transition out of `Rendered` or
`Failed` back into `Loading`. -/
theorem C6_single_conversion_attempt (parse : String → Option JVal) (path : String)
    (evs : List WEvent) :
    (runWidget parse path evs).loadInvocations = 1 ∧
    (∀ s e, (widgetStep parse s e).phase = Phase.loading → s.phase = Phase.loading) := by
  constructor
  · have hfold : ∀ (l : List WEvent) (s : WidgetState),
        (l.foldl (widgetStep parse) s).loadInvocations = s.loadInvocations := by
      intro l
      induction l with
      | nil => intro s; rfl
      | cons e t ih =>
          intro s
          rw [List.foldl_cons, ih, widgetStep_loadInvocations]
    rw [runWidget, hfold]
    rfl
  · exact widgetStep_no_reload parse

/-- Witness for C6: concrete run, and a concrete stimulus whose result is in
`Loading` (a `dispose` on the fresh widget), discharging the implication. -/
theorem C6_single_conversion_attempt_witness :
    (runWidget pnone "notes.docx" [WEvent.disposeCall]).loadInvocations = 1 ∧
    (constructState "notes.docx").phase = Phase.loading :=
  ⟨(C6_single_conversion_attempt pnone "notes.docx" [WEvent.disposeCall]).1,
   (C6_single_conversion_attempt pnone "notes.docx" []).2
     (constructState "notes.docx") WEvent.disposeCall (by decide)⟩

/-- The empty string does not carry the `blob:` scheme. -/
theorem empty_not_blob : ("".startsWith "blob:") = false := by decide

/-- When `iframe.src` was never assigned, `dispose` revokes nothing. -/
theorem dispose_revoked_of_src_empty (s : WidgetState) (h1 : s.iframeSrc = "") :
    (dispose s).revokedUrls = s.revokedUrls := by
  rw [dispose]
  by_cases hd : s.disposed
  · rw [if_pos hd]
  · rw [if_neg hd, h1]
    simp [empty_not_blob]

/-- Stimuli preserve the facts that `iframe.src` was never assigned and that
nothing was ever revoked. -/
theorem widgetStep_src_revoked (parse : String → Option JVal) (s : WidgetState)
    (e : WEvent) (h1 : s.iframeSrc = "") (h2 : s.revokedUrls = []) :
    (widgetStep parse s e).iframeSrc = "" ∧ (widgetStep parse s e).revokedUrls = [] := by
  cases e with
  | disposeCall =>
      have hf := dispose_fields s
      exact ⟨hf.2.2.2.1.trans h1, (dispose_revoked_of_src_empty s h1).trans h2⟩
  | settle o =>
      rw [widgetStep]
      by_cases hs : s.settled
      · rw [if_pos hs]; exact ⟨h1, h2⟩
      · rw [if_neg hs]
        show (settleResult parse o s).iframeSrc = "" ∧
          (settleResult parse o s).revokedUrls = []
        cases hb : loadBody parse o s with
        | ok s' =>
            rw [settleResult_of_ok parse o s s' hb]
            have hf := loadBody_ok_fields parse o s s' hb
            exact ⟨hf.2.1.trans h1, hf.2.2.1.trans h2⟩
        | error e' =>
            rw [settleResult_of_error parse o s e' hb]
            exact ⟨h1, h2⟩

/-- Every reachable widget state has an unassigned `iframe.src` and an empty
revocation record. -/
theorem runWidget_src_revoked (parse : String → Option JVal) (path : String)
    (evs : List WEvent) :
    (runWidget parse path evs).iframeSrc = "" ∧ (runWidget parse path evs).revokedUrls = [] := by
  have hfold : ∀ (l : List WEvent) (s : WidgetState), s.iframeSrc = "" → s.revokedUrls = [] →
      (l.foldl (widgetStep parse) s).iframeSrc = "" ∧
      (l.foldl (widgetStep parse) s).revokedUrls = [] := by
    intro l
    induction l with
    | nil => intro s h1 h2; exact ⟨h1, h2⟩
    | cons e t ih =>
        intro s h1 h2
        rw [List.foldl_cons]
        have hstep := widgetStep_src_revoked parse s e h1 h2
        exact ih (widgetStep parse s e) hstep.1 hstep.2
  exact hfold evs (constructState path) rfl rfl

/-- `dispose` does not change `objectUrls`. -/
theorem dispose_objectUrls (s : WidgetState) : (dispose s).objectUrls = s.objectUrls :=
  (dispose_fields s).2.2.2.2.2

/-- `dispose` is idempotent. -/
theorem dispose_idem (s : WidgetState) : dispose (dispose s) = dispose s := by
  have hd2 : (dispose s).disposed = true := by
    rw [dispose]
    by_cases hd : s.disposed
    · rw [if_pos hd]; exact hd
    · rw [if_neg hd]
  rw [dispose, if_pos hd2]

/-- C7: `dispose` is idempotent — a second call returns through the
`isDisposed` guard with the state unchanged — and on a widget that never
created an object URL it performs no revocation (its totality models that it
raises no error). -/
theorem C7_dispose_idempotent_and_safe :
    (∀ s, dispose (dispose s) = dispose s) ∧
    (∀ (parse : String → Option JVal) (path : String) (evs : List WEvent),
      (runWidget parse path evs).objectUrls = [] →
        (dispose (runWidget parse path evs)).revokedUrls = [] ∧
        (dispose (runWidget parse path evs)).objectUrls = []) := by
  refine ⟨dispose_idem, fun parse path evs hurls => ?_⟩
  have hinv := runWidget_src_revoked parse path evs
  exact ⟨(dispose_revoked_of_src_empty _ hinv.1).trans hinv.2,
    (dispose_objectUrls _).trans hurls⟩

/-- Witness for C7: a widget whose conversion failed (no object URL was ever
created), then disposed. -/
theorem C7_dispose_idempotent_and_safe_witness :
    dispose (dispose (constructState "a.docx")) = dispose (constructState "a.docx") ∧
    ((runWidget pnone "a.docx"
        [WEvent.settle (Outcome.rejected (JVal.jobj
          [("message", JVal.jstr "Internal Server Error")]))]).objectUrls = [] ∧
      (dispose (runWidget pnone "a.docx"
        [WEvent.settle (Outcome.rejected (JVal.jobj
          [("message", JVal.jstr "Internal Server Error")]))])).revokedUrls = [] ∧
      (dispose (runWidget pnone "a.docx"
        [WEvent.settle (Outcome.rejected (JVal.jobj
          [("message", JVal.jstr "Internal Server Error")]))])).objectUrls = []) := by
  refine ⟨C7_dispose_idempotent_and_safe.1 (constructState "a.docx"), ?_, ?_⟩
  · decide
  · exact C7_dispose_idempotent_and_safe.2 pnone "a.docx"
      [WEvent.settle (Outcome.rejected (JVal.jobj
        [("message", JVal.jstr "Internal Server Error")]))] (by decide)

/-- The `catch (apiError)` region always rethrows the original transport
error, whatever the parser returns: the `throw errorData` inside the `try` is
intercepted by its own bare `catch`. -/
theorem handleApiError_self (parse : String → Option JVal) (apiError : JVal) :
    handleApiError parse apiError = apiError := by
  rw [handleApiError]
  by_cases h : jsTruthy (getFieldD apiError "message")
  · rw [if_pos h]
    cases parse (jsToString (getFieldD apiError "message")) <;> rfl
  · rw [if_neg h]

/-! ## C1, C2, C3: behaviour at concrete failing inputs -/

/-- The raw JSON failure body for spec Scenario B (`missing.docx` does not
exist), as it arrives inside the rejected transport error's message. -/
def pathNotFoundBody : String :=
  "\x7b\"success\": false, \"error\": \"File not found: missing.docx\", \"error_type\": \"PathNotFound\", \"file_path\": \"missing.docx\"\x7d"

/-- The rejected transport error carrying that body as its message. -/
def pathNotFoundApiError : JVal :=
  JVal.jobj [("message", JVal.jstr pathNotFoundBody)]

/-- The structured failure object that `JSON.parse` recovers from
`pathNotFoundBody`. -/
def structuredPathNotFound : JVal :=
  JVal.jobj [("success", JVal.jbool false),
             ("error", JVal.jstr "File not found: missing.docx"),
             ("error_type", JVal.jstr "PathNotFound"),
             ("file_path", JVal.jstr "missing.docx")]

/-- A `JSON.parse` that succeeds, returning the structured failure object
(the behaviour of the builtin on `pathNotFoundBody`). -/
def parsePNF : String → Option JVal := fun _ => some structuredPathNotFound

/-- C1 (code bug): when the structured `PathNotFound` failure arrives with a
non-2xx status — i.e. via the rejected transport request whose error message
contains the JSON body — the structured fields are NOT preserved for display.
`JSON.parse` succeeds on the body, but the `throw errorData` sits inside the
same `try` whose bare `catch` rethrows the original transport error, so the
panel is built from the raw transport error: it shows error type `"Error"`
instead of `"PathNotFound"` and renders no Requested-path debug block, even
though the recoverable structured object would have shown both. -/
theorem C1_rejected_transport_loses_structured_fields :
    parsePNF pathNotFoundBody = some structuredPathNotFound ∧
    handleApiError parsePNF pathNotFoundApiError = pathNotFoundApiError ∧
    (runWidget parsePNF "missing.docx"
      [WEvent.settle (Outcome.rejected pathNotFoundApiError)]).phase = Phase.failed ∧
    (runWidget parsePNF "missing.docx"
      [WEvent.settle (Outcome.rejected pathNotFoundApiError)]).errorDivInnerHTML =
      errHtmlOf pathNotFoundApiError ∧
    errorTypeOf pathNotFoundApiError = "Error" ∧
    debugInfoOf pathNotFoundApiError = "" ∧
    errorTypeOf structuredPathNotFound = "PathNotFound" ∧
    strOccurs (debugInfoOf structuredPathNotFound) "missing.docx" = true := by
  refine ⟨rfl, handleApiError_self parsePNF pathNotFoundApiError, by decide, ?_, by decide,
    by decide, by decide, by decide⟩
  have h1 : loadBody parsePNF (Outcome.rejected pathNotFoundApiError)
      (constructState "missing.docx") = Except.error pathNotFoundApiError := by
    show Except.error (handleApiError parsePNF pathNotFoundApiError) = _
    rw [handleApiError_self]
  have h2 := settleResult_of_error parsePNF (Outcome.rejected pathNotFoundApiError)
    (constructState "missing.docx") pathNotFoundApiError h1
  show ({ settleResult parsePNF (Outcome.rejected pathNotFoundApiError)
      (constructState "missing.docx") with settled := true } : WidgetState).errorDivInnerHTML =
    errHtmlOf pathNotFoundApiError
  rw [h2]
  rfl

/-- C2 (code bug): a widget that reached `Rendered` created an object URL,
but `dispose` never revokes it: the URL was assigned to the `embed` element
while `dispose` inspects `this._iframe.src`, which is never assigned. After
a successful load and a `dispose`, the created URL is recorded and the
revocation record is still empty. -/
theorem C2_dispose_leaks_object_url :
    (runWidget pnone "notes.docx"
      [WEvent.settle (Outcome.resolved goodResp)]).phase = Phase.rendered ∧
    (runWidget pnone "notes.docx"
      [WEvent.settle (Outcome.resolved goodResp), WEvent.disposeCall]).disposed = true ∧
    (runWidget pnone "notes.docx"
      [WEvent.settle (Outcome.resolved goodResp), WEvent.disposeCall]).objectUrls =
      ["blob:doc-0"] ∧
    (runWidget pnone "notes.docx"
      [WEvent.settle (Outcome.resolved goodResp), WEvent.disposeCall]).revokedUrls = [] := by
  refine ⟨by decide, by decide, by decide, by decide⟩

/-- A failure payload whose `file_path` carries active markup. -/
def xssPath : String := "<img src=x onerror=alert(1)>"

/-- A conversion failure whose `file_path` field is that markup. -/
def xssError : JVal :=
  JVal.jobj [("error", JVal.jstr "Conversion failed"),
             ("error_type", JVal.jstr "ConversionFailure"),
             ("file_path", JVal.jstr xssPath)]

/-- C3 (code bug): not every textual field of the error payload is escaped
before insertion — the `file_path` (and `full_path`) values are interpolated
raw into the debug block, so payload markup reaches the panel unescaped;
had `_escapeHtml` been applied, the block would contain the escaped form
instead. (The error type and message fields, by contrast, are escaped: the
same markup placed in the `error` field only appears escaped.) -/
theorem C3_path_fields_inserted_unescaped :
    strOccurs (debugInfoOf xssError) ("<code>" ++ xssPath ++ "</code>") = true ∧
    strOccurs (debugInfoOf xssError) (escapeHtml xssPath) = false ∧
    strOccurs (errHtmlOf xssError) xssPath = true ∧
    escapeHtml xssPath = "&lt;img src=x onerror=alert(1)&gt;" ∧
    strOccurs (errHtmlOf (JVal.jobj [("error", JVal.jstr xssPath)])) xssPath = false ∧
    strOccurs (errHtmlOf (JVal.jobj [("error", JVal.jstr xssPath)]))
      (escapeHtml xssPath) = true := by
  refine ⟨by decide, by decide, by decide, by decide, by decide, by decide⟩

/-! ## C5, C10: failure handling -/

/-- `(a ++ b).data = a.data ++ b.data` (string append concatenates the
character data). -/
theorem string_data_append (a b : String) : (a ++ b).data = a.data ++ b.data := rfl

/-- `JSON.stringify` of an object is never the empty string. -/
theorem stringify_jobj_ne_empty (fs : List (String × JVal)) :
    stringify (JVal.jobj fs) ≠ "" := by
  intro h
  have hd : ("\x7b" ++ stringifyFields fs ++ "\x7d").data = ("" : String).data :=
    congrArg String.data (by rw [stringify] at h; exact h)
  rw [string_data_append, string_data_append] at hd
  have hnil : ("\x7b" : String).data ++ (stringifyFields fs).data = [] ∧
      ("\x7d" : String).data = [] := List.append_eq_nil.mp hd
  have hnil2 : ("\x7b" : String).data = [] ∧ (stringifyFields fs).data = [] :=
    List.append_eq_nil.mp hnil.1
  exact absurd hnil2.1 (by decide)

/-- A JSON field value that is either absent or a string (the shape every
`error`/`message` field takes in the transport protocol). -/
def strOrAbsent (v : JVal) : Prop := v = JVal.jundef ∨ ∃ t, v = JVal.jstr t

/-- The message `_showError` computes for a thrown object is never empty when
its `error` and `message` fields are absent or strings: a truthy string field
is a nonempty string, and the `JSON.stringify` fallback is nonempty. -/
theorem errorMessageOf_jobj_ne_empty (fs : List (String × JVal))
    (he : strOrAbsent (getFieldD (JVal.jobj fs) "error"))
    (hm : strOrAbsent (getFieldD (JVal.jobj fs) "message")) :
    errorMessageOf (JVal.jobj fs) ≠ "" := by
  simp only [errorMessageOf]
  by_cases h1 : jsTruthy (getFieldD (JVal.jobj fs) "error")
  · rw [if_pos h1]
    rcases he with habs | ⟨t, ht⟩
    · rw [habs] at h1; exact absurd h1 (by simp [jsTruthy])
    · rw [ht] at h1 ⊢
      simp only [jsTruthy] at h1
      simp only [jsToString]
      simpa using h1
  · rw [if_neg h1]
    by_cases h2 : jsTruthy (getFieldD (JVal.jobj fs) "message")
    · rw [if_pos h2]
      rcases hm with habs | ⟨t, ht⟩
      · rw [habs] at h2; exact absurd h2 (by simp [jsTruthy])
      · rw [ht] at h2 ⊢
        simp only [jsTruthy] at h2
        simp only [jsToString]
        simpa using h2
    · rw [if_neg h2]
      exact stringify_jobj_ne_empty fs

/-- The failure paths enumerated by C5: a transport rejection whose body is
not valid JSON, a resolved response object lacking a truthy `success` or
`pdf_data` (with protocol-shaped `error`/`message` fields), or a response
whose `pdf_data` fails to decode. -/
inductive C5Failure (parse : String → Option JVal) : Outcome → Prop where
  | badBody (body : String) (hp : parse body = none) :
      C5Failure parse (Outcome.rejected (JVal.jobj [("message", JVal.jstr body)]))
  | lackingFields (fs : List (String × JVal))
      (he : strOrAbsent (getFieldD (JVal.jobj fs) "error"))
      (hm : strOrAbsent (getFieldD (JVal.jobj fs) "message"))
      (hc : (jsTruthy (getFieldD (JVal.jobj fs) "success") &&
             jsTruthy (getFieldD (JVal.jobj fs) "pdf_data")) = false) :
      C5Failure parse (Outcome.resolved (JVal.jobj fs))
  | decodeFailure (fs : List (String × JVal))
      (hs : jsTruthy (getFieldD (JVal.jobj fs) "success") = true)
      (hp : jsTruthy (getFieldD (JVal.jobj fs) "pdf_data") = true)
      (hd : atob (jsToString (getFieldD (JVal.jobj fs) "pdf_data")) = none) :
      C5Failure parse (Outcome.resolved (JVal.jobj fs))

/-- C5: on every such failure path, `_loadDocument` catches the thrown value
(the settlement function is total — no exception propagates), the widget ends
in the `Failed` panel, and the displayed error message is non-empty; when no
structured fields can be recovered the panel is built from the fallback error
object itself. -/
theorem C5_failures_reach_failed_panel (parse : String → Option JVal) (o : Outcome)
    (s : WidgetState) (hf : C5Failure parse o) :
    (settleResult parse o s).phase = Phase.failed ∧
    ∃ e, (settleResult parse o s).errorDivInnerHTML = errHtmlOf e ∧
      errorMessageOf e ≠ "" := by
  have key : ∃ e, loadBody parse o s = Except.error e ∧ errorMessageOf e ≠ "" := by
    cases hf with
    | badBody body hp =>
        refine ⟨JVal.jobj [("message", JVal.jstr body)], ?_, ?_⟩
        · show Except.error (handleApiError parse _) = _
          rw [handleApiError_self]
        · exact errorMessageOf_jobj_ne_empty _ (Or.inl rfl) (Or.inr ⟨body, rfl⟩)
    | lackingFields fs he hm hc =>
        refine ⟨JVal.jobj fs, ?_, errorMessageOf_jobj_ne_empty fs he hm⟩
        simp only [loadBody]
        rw [hc]
        simp
    | decodeFailure fs hs hp hd =>
        refine ⟨invalidCharacterError, ?_, by decide⟩
        simp only [loadBody, hs, hp, Bool.and_self, if_pos]
        rw [base64ToBlob, hd]
  obtain ⟨e, he, hmsg⟩ := key
  rw [settleResult_of_error parse o s e he]
  exact ⟨phase_of_block _ rfl, e, rfl, hmsg⟩

/-- Witness for C5: a transport rejection with a non-JSON body (spec Scenario
D) on a fresh widget. -/
theorem C5_failures_reach_failed_panel_witness :
    (settleResult pnone
      (Outcome.rejected (JVal.jobj [("message", JVal.jstr "Internal Server Error: <html>")]))
      (constructState "report.docx")).phase = Phase.failed ∧
    ∃ e, (settleResult pnone
      (Outcome.rejected (JVal.jobj [("message", JVal.jstr "Internal Server Error: <html>")]))
      (constructState "report.docx")).errorDivInnerHTML = errHtmlOf e ∧
      errorMessageOf e ≠ "" :=
  C5_failures_reach_failed_panel pnone _ (constructState "report.docx")
    (C5Failure.badBody "Internal Server Error: <html>" rfl)

/-- C10: a response that resolves with `success: true` but an absent or empty
`pdf_data` never reaches `Rendered` — the response object itself is thrown,
the panel is built from it, and `_ready` rejects with it; conversely, any
settlement that ends in `Rendered` came from a resolved response with both
`success` and `pdf_data` truthy. -/
theorem C10_rendered_requires_success_and_pdf_data :
    (∀ (parse : String → Option JVal) (s : WidgetState) (fs : List (String × JVal)),
      getFieldD (JVal.jobj fs) "success" = JVal.jbool true →
      (getFieldD (JVal.jobj fs) "pdf_data" = JVal.jundef ∨
        getFieldD (JVal.jobj fs) "pdf_data" = JVal.jstr "") →
      (settleResult parse (Outcome.resolved (JVal.jobj fs)) s).phase = Phase.failed ∧
      (settleResult parse (Outcome.resolved (JVal.jobj fs)) s).errorDivInnerHTML =
        errHtmlOf (JVal.jobj fs) ∧
      (settleResult parse (Outcome.resolved (JVal.jobj fs)) s).ready =
        ReadyState.rejectedWith (JVal.jobj fs)) ∧
    (∀ (parse : String → Option JVal) (o : Outcome) (s : WidgetState),
      (settleResult parse o s).phase = Phase.rendered →
      ∃ r, o = Outcome.resolved r ∧ jsTruthy (getFieldD r "success") = true ∧
        jsTruthy (getFieldD r "pdf_data") = true) := by
  constructor
  · intro parse s fs hs hpd
    have hcond : (jsTruthy (getFieldD (JVal.jobj fs) "success") &&
        jsTruthy (getFieldD (JVal.jobj fs) "pdf_data")) = false := by
      rcases hpd with h | h <;> rw [h] <;> simp [jsTruthy]
    have herr : loadBody parse (Outcome.resolved (JVal.jobj fs)) s =
        Except.error (JVal.jobj fs) := by
      simp only [loadBody]
      rw [hcond]
      simp
    rw [settleResult_of_error parse _ s _ herr]
    exact ⟨phase_of_block _ rfl, rfl, rfl⟩
  · intro parse o s h
    cases hb : loadBody parse o s with
    | error e =>
        rw [settleResult_of_error parse o s e hb, phase_of_block _ rfl] at h
        exact Phase.noConfusion h
    | ok s' => exact loadBody_ok_conditions parse o s s' hb

/-- Witness for C10: a `success: true` response with `pdf_data` absent ends
in `Failed` with the response shown; the `goodResp` settlement renders, so
its fields are truthy. -/
theorem C10_rendered_requires_success_and_pdf_data_witness :
    ((settleResult pnone (Outcome.resolved (JVal.jobj [("success", JVal.jbool true)]))
        (constructState "x.docx")).phase = Phase.failed ∧
      (settleResult pnone (Outcome.resolved (JVal.jobj [("success", JVal.jbool true)]))
        (constructState "x.docx")).errorDivInnerHTML =
        errHtmlOf (JVal.jobj [("success", JVal.jbool true)]) ∧
      (settleResult pnone (Outcome.resolved (JVal.jobj [("success", JVal.jbool true)]))
        (constructState "x.docx")).ready =
        ReadyState.rejectedWith (JVal.jobj [("success", JVal.jbool true)])) ∧
    (∃ r, Outcome.resolved goodResp = Outcome.resolved r ∧
      jsTruthy (getFieldD r "success") = true ∧
      jsTruthy (getFieldD r "pdf_data") = true) :=
  ⟨C10_rendered_requires_success_and_pdf_data.1 pnone (constructState "x.docx")
      [("success", JVal.jbool true)] rfl (Or.inl rfl),
   C10_rendered_requires_success_and_pdf_data.2 pnone (Outcome.resolved goodResp)
      (constructState "x.docx") (by decide)⟩

end DocReader
